import Mathlib

/-!
# Verification of the Renson Embedded state-reconciliation core

A shallow embedding, in Lean 4, of the state-handling kernel of the
`renson_embedded` Home Assistant integration:

* the JSON-like value domain handled by the Python code
  (`dict`s with string keys, strings, numbers, booleans, null, arrays);
* the coordinator's merge operations
  (`RensonCoordinator._async_update_data`, `_handle_ws_message`);
* the WebSocket event classifier (`RensonClient._parse_ws_message`);
* the REST accessors (`async_get_status`, `async_get_weather_state`)
  as functions of an abstract HTTP fetch outcome;
* the tilt position mapper (`RensonPergolaRoof._degrees_to_ha`);
* the cycle button decision rule (`RensonCycleButton.async_press`).

Python floats are modelled as exact rationals (`ℚ`), `round` as Python's
round-half-to-even, and Python `dict`s as association lists with
first-match lookup and in-place replacement on insert, which reproduces
`d[k] = v` and `{**a, **b}` semantics key-for-key.
-/

/-- JSON-like values as handled by the Python code.  `null` doubles as
Python `None` (the two are indistinguishable once `json.loads` has run). -/
inductive Json where
  | null : Json
  | bool : Bool → Json
  | num : ℚ → Json
  | str : String → Json
  | arr : List Json → Json
  | obj : List (String × Json) → Json

/-- A Python `dict` with string keys, as an association list. -/
abbrev Dict := List (String × Json)

/-- `d.get(k)` without default: first-match lookup, `none` when absent. -/
def dget : Dict → String → Option Json
  | [], _ => none
  | kv :: d, k => if kv.1 == k then some kv.2 else dget d k

/-- Python `k in d`. -/
def dcontains : Dict → String → Bool
  | [], _ => false
  | kv :: d, k => kv.1 == k || dcontains d k

/-- Replace every binding of key `k` by `v`, keeping positions. -/
def dreplace : Dict → String → Json → Dict
  | [], _, _ => []
  | kv :: d, k, v => (if kv.1 == k then (k, v) else kv) :: dreplace d k v

/-- Python `d[k] = v`: replace the binding in place if the key exists,
otherwise append it (dict insertion-order semantics). -/
def dinsert (d : Dict) (k : String) (v : Json) : Dict :=
  if dcontains d k then dreplace d k v else d ++ [(k, v)]

/-- Python `{**a, **b}`: start from `a` and insert every binding of `b`. -/
def dmerge (a b : Dict) : Dict :=
  b.foldl (fun acc kv => dinsert acc kv.1 kv.2) a

/-- Python `d.get(k, default)`. -/
def pyGetD (d : Dict) (k : String) (dflt : Json) : Json :=
  (dget d k).getD dflt

/-- Python `d.get(k)` with `None` for a missing key. -/
def pyGet (d : Dict) (k : String) : Json :=
  (dget d k).getD .null

/-- Python truthiness of a JSON value. -/
def jTruthy : Json → Bool
  | .null => false
  | .bool b => b
  | .num q => decide (q ≠ 0)
  | .str s => decide (s ≠ "")
  | .arr l => !l.isEmpty
  | .obj l => !l.isEmpty

/-! ### Dictionary lemmas -/

theorem dget_of_not_contains {d : Dict} {k : String}
    (h : dcontains d k = false) : dget d k = none := by
  induction d with
  | nil => rfl
  | cons kv d ih =>
    simp only [dcontains, Bool.or_eq_false_iff] at h
    simp [dget, h.1, ih h.2]

theorem dget_dreplace_self {d : Dict} {k : String} (v : Json)
    (h : dcontains d k = true) : dget (dreplace d k v) k = some v := by
  induction d with
  | nil => simp [dcontains] at h
  | cons kv d ih =>
    simp only [dcontains, Bool.or_eq_true] at h
    by_cases hk : kv.1 == k
    · simp [dreplace, dget, hk]
    · simp only [dreplace, hk, Bool.false_eq_true, if_neg, not_false_iff]
      simp only [dget, hk, Bool.false_eq_true, if_neg, not_false_iff]
      exact ih (h.resolve_left (by simp [hk]))

theorem dget_dreplace_ne {k k' : String} (d : Dict) (v : Json)
    (h : k' ≠ k) : dget (dreplace d k v) k' = dget d k' := by
  induction d with
  | nil => rfl
  | cons kv d ih =>
    by_cases hk : kv.1 == k
    · have hkk : kv.1 = k := by simpa [beq_iff_eq] using hk
      have h1 : (k == k') = false := by simp [beq_iff_eq]; exact fun hc => h hc.symm
      have h2 : (kv.1 == k') = false := by simp [beq_iff_eq, hkk]; exact fun hc => h hc.symm
      simp [dreplace, dget, hk, h1, h2, ih]
    · simp only [dreplace, hk, Bool.false_eq_true, if_neg, not_false_iff]
      by_cases hk' : kv.1 == k'
      · simp [dget, hk']
      · simp [dget, hk', ih]

theorem dget_append_of_none {a : Dict} {k : String}
    (h : dget a k = none) (b : Dict) : dget (a ++ b) k = dget b k := by
  induction a with
  | nil => rfl
  | cons kv a ih =>
    by_cases hk : kv.1 == k
    · simp [dget, hk] at h
    · simp only [dget, hk, Bool.false_eq_true, if_neg, not_false_iff] at h
      simpa [dget, hk] using ih h

theorem dget_append_of_some {a : Dict} {k : String} {v : Json}
    (h : dget a k = some v) (b : Dict) : dget (a ++ b) k = some v := by
  induction a with
  | nil => simp [dget] at h
  | cons kv a ih =>
    by_cases hk : kv.1 == k
    · simp [dget, hk] at h ⊢
      exact h
    · simp only [dget, hk, Bool.false_eq_true, if_neg, not_false_iff] at h ⊢
      exact ih h

theorem dget_dinsert_self (d : Dict) (k : String) (v : Json) :
    dget (dinsert d k v) k = some v := by
  unfold dinsert
  by_cases h : dcontains d k
  · simp only [h, if_pos]
    exact dget_dreplace_self v h
  · simp only [h, Bool.false_eq_true, if_neg, not_false_iff]
    have hd : dget d k = none := dget_of_not_contains (by simpa using h)
    rw [dget_append_of_none hd]
    simp [dget]

theorem dget_dinsert_ne {k k' : String} (d : Dict) (v : Json)
    (h : k' ≠ k) : dget (dinsert d k v) k' = dget d k' := by
  unfold dinsert
  by_cases hc : dcontains d k
  · simp only [hc, if_pos]
    exact dget_dreplace_ne d v h
  · simp only [hc, Bool.false_eq_true, if_neg, not_false_iff]
    have h1 : (k == k') = false := by simp [beq_iff_eq]; exact fun hc2 => h hc2.symm
    cases hget : dget d k' with
    | none =>
      rw [dget_append_of_none hget]
      simp [dget, h1]
    | some v' => exact dget_append_of_some hget _

theorem dmerge_cons (a : Dict) (kv : String × Json) (b : Dict) :
    dmerge a (kv :: b) = dmerge (dinsert a kv.1 kv.2) b := rfl

theorem dget_dmerge_of_absent {b : Dict} {k : String} (a : Dict)
    (h : dget b k = none) : dget (dmerge a b) k = dget a k := by
  induction b generalizing a with
  | nil => rfl
  | cons kv b ih =>
    by_cases hk : kv.1 == k
    · simp [dget, hk] at h
    · simp only [dget, hk, Bool.false_eq_true, if_neg, not_false_iff] at h
      rw [dmerge_cons, ih _ h, dget_dinsert_ne]
      intro hc
      simp [beq_iff_eq, hc] at hk

/-! ### Python `round` (banker's rounding) and the tilt position mapper -/

/-- Python's built-in `round` to an integer: nearest integer, ties to even. -/
def pyRound (q : ℚ) : ℤ :=
  if q - ⌊q⌋ < 1/2 then ⌊q⌋
  else if 1/2 < q - ⌊q⌋ then ⌊q⌋ + 1
  else if 2 ∣ ⌊q⌋ then ⌊q⌋ else ⌊q⌋ + 1

theorem pyRound_le (q : ℚ) : (pyRound q : ℚ) ≤ q + 1/2 := by
  unfold pyRound
  have h1 : (⌊q⌋ : ℚ) ≤ q := Int.floor_le q
  have h2 : q < (⌊q⌋ : ℚ) + 1 := Int.lt_floor_add_one q
  split
  · linarith
  · split
    · rename_i hlt hgt
      push_cast
      linarith
    · rename_i hlt hgt
      have hr : q - (⌊q⌋ : ℚ) = 1/2 := le_antisymm (not_lt.mp hgt) (not_lt.mp hlt)
      split
      · linarith
      · push_cast
        linarith

theorem le_pyRound (q : ℚ) : q - 1/2 ≤ (pyRound q : ℚ) := by
  unfold pyRound
  have h1 : (⌊q⌋ : ℚ) ≤ q := Int.floor_le q
  have h2 : q < (⌊q⌋ : ℚ) + 1 := Int.lt_floor_add_one q
  split
  · rename_i hlt
    linarith
  · split
    · push_cast
      linarith
    · rename_i hlt hgt
      have hr : q - (⌊q⌋ : ℚ) = 1/2 := le_antisymm (not_lt.mp hgt) (not_lt.mp hlt)
      split
      · linarith
      · push_cast
        linarith

theorem pyRound_mono {a b : ℚ} (h : a ≤ b) : pyRound a ≤ pyRound b := by
  by_contra hlt
  push_neg at hlt
  have h1 : (pyRound b : ℚ) + 1 ≤ (pyRound a : ℚ) := by
    exact_mod_cast Int.add_one_le_iff.mpr hlt
  have h2 := pyRound_le a
  have h3 := le_pyRound b
  have hba : b ≤ a := by linarith
  have hab : a = b := le_antisymm h hba
  rw [hab] at hlt
  exact lt_irrefl _ hlt

theorem pyRound_intCast (n : ℤ) : pyRound ((n : ℚ)) = n := by
  simp [pyRound]

/-- `cover.py` `TILT_MAX_DEGREES = 125`. -/
def TILT_MAX_DEGREES : ℚ := 125

/-- `RensonPergolaRoof._degrees_to_ha`:
`min(100, max(0, round(degrees / TILT_MAX_DEGREES * 100)))`. -/
def degrees_to_ha (degrees : ℚ) : ℤ :=
  min 100 (max 0 (pyRound (degrees / TILT_MAX_DEGREES * 100)))

/-- The spec formula for `tiltDegreesToPercent`:
`clamp(round(d / 125 * 100), 0, 100)` with `clamp(x, lo, hi) = max lo (min x hi)`. -/
def tiltDegreesToPercentSpec (d : ℚ) : ℤ :=
  max 0 (min (pyRound (d / 125 * 100)) 100)

/-- `RensonPergolaRoof._ha_to_degrees`: clamp to [0,100] then
`round(position / 100 * TILT_MAX_DEGREES, 1)` (one decimal place). -/
def ha_to_degrees (position : ℤ) : ℚ :=
  (pyRound ((min 100 (max 0 position) : ℚ) / 100 * TILT_MAX_DEGREES * 10) : ℚ) / 10

/-! ### String helpers matching Python semantics -/

/-- Is `pat` a prefix of `l` (character-wise)? -/
def charsPre : List Char → List Char → Bool
  | [], _ => true
  | _ :: _, [] => false
  | a :: as, b :: bs => a == b && charsPre as bs

/-- Python's substring test `pat in s` on character lists. -/
def charsContains : List Char → List Char → Bool
  | [], needle => charsPre needle []
  | h :: t, needle => charsPre needle (h :: t) || charsContains t needle

/-- Python `pat in s` for strings. -/
def strContains (s pat : String) : Bool :=
  charsContains s.data pat.data

/-- Drop characters satisfying `p` from both ends. -/
def stripBoth (p : Char → Bool) (l : List Char) : List Char :=
  ((l.dropWhile p).reverse.dropWhile p).reverse

/-- Python `s.strip()` (whitespace from both ends). -/
def pyStrip (s : String) : String :=
  ⟨stripBoth Char.isWhitespace s.data⟩

/-- Python `s.strip('"')` (quote characters from both ends). -/
def pyStripQuotes (s : String) : String :=
  ⟨stripBoth (fun c => c == '"') s.data⟩

/-! ### Device Gateway: REST accessors (`api/client.py`)

The HTTP transport is external; a fetch outcome is either a network-level
failure (an `aiohttp` exception) or a response with a status code, a
`Content-Type` header, the result of attempting `response.json()`, and the
body text. -/

/-- An HTTP response as observed by the client code. -/
structure HttpResponse where
  status : Nat
  contentType : String
  jsonBody : Option Json
  textBody : String

/-- Outcome of one HTTP request: network error or a response. -/
inductive FetchResult where
  | ok (resp : HttpResponse)
  | netErr (msg : String)

/-- `RensonClient.async_get_status`: `raise_for_status()`, then return the
JSON body when the `Content-Type` contains `"application/json"`, and the
debugging record `{"_content_type": ..., "_preview": text[:500]}` otherwise.
`Except.error` models a raised exception. -/
def async_get_status (r : FetchResult) : Except String Json :=
  match r with
  | .netErr e => .error e
  | .ok resp =>
    if 400 ≤ resp.status then .error ("HTTP " ++ toString resp.status)
    else if strContains resp.contentType "application/json" then
      match resp.jsonBody with
      | none => .error "json decode error"
      | some j => .ok j
    else
      .ok (.obj [("_content_type", .str resp.contentType),
                 ("_preview", .str (resp.textBody.take 500))])

/-- `RensonClient.async_get_weather_state`: `raise_for_status()`, then for a
JSON response return the string body, or `data.get("state") or
data.get("weather_state")` for a dict body; for a non-JSON response return
the body text stripped of whitespace and quotes, or `None` when empty.
The returned Python value is a `Json` with `.null` standing for `None`;
`Except.error` models a raised exception. -/
def async_get_weather_state (r : FetchResult) : Except String Json :=
  match r with
  | .netErr e => .error e
  | .ok resp =>
    if 400 ≤ resp.status then .error ("HTTP " ++ toString resp.status)
    else if strContains resp.contentType "application/json" then
      match resp.jsonBody with
      | none => .error "json decode error"
      | some (.str s) => .ok (.str s)
      | some (.obj l) =>
        .ok (if jTruthy (pyGet l "state") then pyGet l "state"
             else pyGet l "weather_state")
      | some _ => .ok .null
    else
      .ok (if pyStripQuotes (pyStrip resp.textBody) ≠ "" then
             .str (pyStripQuotes (pyStrip resp.textBody))
           else .null)

/-! ### Event Classifier (`RensonClient._parse_ws_message`)

`json.loads` is the Python stdlib; its outcome is the function's input:
`none` for undecodable text, `some j` for a decoded JSON value. -/

/-- `RensonClient._WS_PROTOCOL_TYPES`. -/
def wsProtocolTypes : List String :=
  ["Authenticated", "SubscriptionsUpdated", "Ping", "Pong"]

/-- `RensonClient._WS_EVENT_TYPES`. -/
def wsEventTypes : List String :=
  ["ROOF_STATUS_CHANGED", "SKYE2_STATUS_CHANGED",
   "ROOF_SELF_TEST_STATUS_CHANGED", "DIGITAL_INPUT_STATUS_CHANGED",
   "SYSTEM_STATUS_CHANGED"]

/-- Python `msg_type in <set of strings>` where `msg_type` is an arbitrary
value (`msg.get("type", "")`): only a string can be a member. -/
def jsonStrMem (j : Json) (l : List String) : Bool :=
  match j with
  | .str s => l.contains s
  | _ => false

/-- `RensonClient._parse_ws_message` as a function of the `json.loads`
outcome: protocol messages, non-dict payloads, unknown types and events
without a dict `data` field yield `none` (discard); a known event type with
a dict `data` field yields that data record. -/
def parse_ws_message : Option Json → Option Json
  | none => none
  | some (.obj l) =>
    if jsonStrMem (pyGetD l "type" (.str "")) wsProtocolTypes then none
    else if jsonStrMem (pyGetD l "type" (.str "")) wsEventTypes then
      match dget l "data" with
      | some (.obj dl) => some (.obj dl)
      | _ => none
    else none
  | some _ => none

/-! ### State Reconciler (`coordinator.py`) -/

/-- `UPDATE_INTERVAL = timedelta(seconds=30)`. -/
def UPDATE_INTERVAL : ℚ := 30

/-- The weather-merge step of `RensonCoordinator._async_update_data`:
`data["weather_state"] = weather` when the fetch succeeded with a
non-`None` value; any exception is swallowed. -/
def applyWeather (data : Dict) (wres : Except String Json) : Dict :=
  match wres with
  | .ok .null => data
  | .ok w => dinsert data "weather_state" w
  | .error _ => data

/-- The WebSocket-only key preservation loop of
`RensonCoordinator._async_update_data`: `for key in ("roof_device",):
if key in self.data and key not in data: data[key] = self.data[key]`,
guarded by `if self.data:` (Python truthiness: present and non-empty). -/
def preserveWsKeys (prior : Option Dict) (data : Dict) : Dict :=
  match prior with
  | some p =>
    if !p.isEmpty then
      (if dcontains p "roof_device" && !dcontains data "roof_device" then
         dinsert data "roof_device" (pyGet p "roof_device")
       else data)
    else data
  | none => data

/-- The successful path of `RensonCoordinator._async_update_data` given the
status record fetched over REST and the weather-fetch outcome: merge the
weather, then preserve WebSocket-only keys from the prior data. -/
def updateDataValue (prior : Option Dict) (status : Dict)
    (wres : Except String Json) : Dict :=
  preserveWsKeys prior (applyWeather status wres)

/-- `RensonCoordinator._async_update_data` including its failure path: a
status-fetch exception is re-raised as `UpdateFailed` before any state is
touched. -/
def updateDataExc (prior : Option Dict) (statusRes : Except String Dict)
    (wres : Except String Json) : Except String Dict :=
  match statusRes with
  | .error e => .error ("Error fetching Renson status: " ++ e)
  | .ok status => .ok (updateDataValue prior status wres)

/-- The pure merge performed by `RensonCoordinator._handle_ws_message`:
store the delta as-is when no data is held yet, else `{**self.data, **data}`. -/
def handleWsMerge (prior : Option Dict) (delta : Dict) : Dict :=
  match prior with
  | none => delta
  | some p => dmerge p delta

/-- A merge input to the coordinator: a REST snapshot (status record plus
weather-fetch outcome) or a push delta. -/
inductive MergeInput where
  | rest (status : Dict) (weather : Except String Json)
  | push (delta : Dict)

/-- One coordinator merge applied to the currently held data. -/
def coordMergeStep (prior : Option Dict) : MergeInput → Dict
  | .rest status weather => updateDataValue prior status weather
  | .push delta => handleWsMerge prior delta

/-- A whole sequence of coordinator merges. -/
def runMerges (st : Option Dict) (inputs : List MergeInput) : Option Dict :=
  inputs.foldl (fun s i => some (coordMergeStep s i)) st

/-- Does a merge input lack the `roof_device` field? -/
def lacksRoofDevice : MergeInput → Prop
  | .rest status _ => dget status "roof_device" = none
  | .push delta => dget delta "roof_device" = none

/-- Signals delivered to coordinator subscribers. -/
inductive RefreshSignal where
  | updated
  | refreshFailed

/-- Coordinator state relevant to scheduling: the held data and the time at
which the next REST poll is scheduled. -/
structure CoordState where
  data : Option Dict
  nextRefreshAt : ℚ

/-- Modelled from the spec and the coordinator's docstrings:
`DataUpdateCoordinator.async_set_updated_data` (Home Assistant helper, not
under `src/`) stores the data, marks the update successful, reschedules the
next REST poll one `UPDATE_INTERVAL` after now — the coordinator's own
docstring: "pushes the update to all listeners, resetting the REST poll
timer" — and notifies listeners once. -/
def async_set_updated_data (now : ℚ) (d : Dict) :
    CoordState × List RefreshSignal :=
  ({ data := some d, nextRefreshAt := now + UPDATE_INTERVAL },
   [RefreshSignal.updated])

/-- `RensonCoordinator._handle_ws_message`: publish the delta as-is when no
data is held yet, else publish `{**self.data, **data}`. -/
def handle_ws_message (st : CoordState) (now : ℚ) (delta : Dict) :
    CoordState × List RefreshSignal :=
  async_set_updated_data now (handleWsMerge st.data delta)

/-- Modelled from the spec and the coordinator's docstrings: one scheduled
refresh in Home Assistant's `DataUpdateCoordinator` driver (not under
`src/`).  On success the returned data replaces the held data and listeners
are notified once; on `UpdateFailed` the held data is kept unchanged and
listeners are notified once of the failure; either way the next poll is
scheduled one `UPDATE_INTERVAL` later. -/
def refreshStep (st : CoordState) (now : ℚ) (result : Except String Dict) :
    CoordState × List RefreshSignal :=
  match result with
  | .ok d =>
    ({ data := some d, nextRefreshAt := now + UPDATE_INTERVAL },
     [RefreshSignal.updated])
  | .error _ =>
    ({ data := st.data, nextRefreshAt := now + UPDATE_INTERVAL },
     [RefreshSignal.refreshFailed])

/-- The held data as seen by subscribers (`coordinator.data`). -/
def publishedData (st : CoordState) : Dict :=
  st.data.getD []

/-! ### Cycle button (`RensonCycleButton.async_press`, `button.py`) -/

/-- The command issued by one cycle press. -/
inductive CycleCmd where
  | stopRoof
  | setTiltZero
  | openRoof

/-- `roof = self.coordinator.data.get("roof_device")`, computed only under
`if self.coordinator.data:` (`None` otherwise). -/
def cycleRoofOf : Option Dict → Json
  | some d => if !d.isEmpty then pyGet d "roof_device" else .null
  | none => .null

/-- `positions = self.coordinator.data.get("current_roof_positions", {})`,
computed only under `if self.coordinator.data:` (`{}` otherwise). -/
def cyclePositionsOf : Option Dict → Json
  | some d => if !d.isEmpty then pyGetD d "current_roof_positions" (.obj []) else .obj []
  | none => .obj []

/-- Python `roof and roof.get("state") == "moving"` as a truth value;
`none` models the `AttributeError` raised when `roof` is truthy but has no
`.get` (not a dict). -/
def cycleIsMoving (roof : Json) : Option Bool :=
  if !jTruthy roof then some false
  else match roof with
    | .obj rl => some (match dget rl "state" with
        | some (.str s) => s == "moving"
        | _ => false)
    | _ => none

/-- The numeric value of `stack = positions.get("stack", 0.0)` as consumed
by `round(stack)`; `none` models the `TypeError` that `round` raises on a
non-numeric value (Python `round(True) = 1`). -/
def stackNumOf (pl : Dict) : Option ℚ :=
  match dget pl "stack" with
  | none => some 0
  | some (.num q) => some q
  | some (.bool b) => some (if b then 1 else 0)
  | some _ => none

/-- The decision core of `RensonCycleButton.async_press` given `roof`,
`positions` and the direction memory `self._last_direction`; returns the
issued command and the new direction memory, or `none` where the Python
code raises (`positions` not a dict, `roof` truthy non-dict, or `round` on
a non-number — `round(stack)` is only reached when not moving and the
memory is not `"opening"`, matching `or` short-circuiting). -/
def async_press_core (roof positions : Json) (last : String) :
    Option (CycleCmd × String) :=
  match positions with
  | .obj pl =>
    match cycleIsMoving roof with
    | none => none
    | some true => some (.stopRoof, last)
    | some false =>
      if last == "opening" then some (.setTiltZero, "closing")
      else
        match stackNumOf pl with
        | none => none
        | some q =>
          if 100 ≤ pyRound q then some (.setTiltZero, "closing")
          else some (.openRoof, "opening")
  | _ => none

/-- `RensonCycleButton.async_press` as a function of the coordinator data
and the direction memory. -/
def async_press (data : Option Dict) (last : String) :
    Option (CycleCmd × String) :=
  async_press_core (cycleRoofOf data) (cyclePositionsOf data) last

/-! ### Supporting lemmas on the coordinator operations -/

theorem dcontains_eq_isSome (d : Dict) (k : String) :
    dcontains d k = (dget d k).isSome := by
  induction d with
  | nil => rfl
  | cons kv d ih =>
    by_cases hk : kv.1 == k
    · simp [dcontains, dget, hk]
    · simp [dcontains, dget, hk, ih]

theorem not_isEmpty_of_dget_some {d : Dict} {k : String} {v : Json}
    (h : dget d k = some v) : d.isEmpty = false := by
  cases d with
  | nil => simp [dget] at h
  | cons kv d => rfl

theorem applyWeather_dget_ne {k : String} (d : Dict) (w : Except String Json)
    (h : k ≠ "weather_state") : dget (applyWeather d w) k = dget d k := by
  cases w with
  | error e => rfl
  | ok j => cases j <;> simp [applyWeather, dget_dinsert_ne _ _ h]

theorem preserveWsKeys_dget_ne {k : String} (prior : Option Dict) (d : Dict)
    (h : k ≠ "roof_device") : dget (preserveWsKeys prior d) k = dget d k := by
  cases prior with
  | none => rfl
  | some p =>
    simp only [preserveWsKeys]
    split
    · split
      · exact dget_dinsert_ne _ _ h
      · rfl
    · rfl

theorem preserveWsKeys_roof_device {p : Dict} {d : Dict} {v : Json}
    (hv : dget p "roof_device" = some v) (hd : dget d "roof_device" = none) :
    dget (preserveWsKeys (some p) d) "roof_device" = some v := by
  have hne : p.isEmpty = false := not_isEmpty_of_dget_some hv
  have hc : (dcontains p "roof_device" && !dcontains d "roof_device") = true := by
    rw [dcontains_eq_isSome, dcontains_eq_isSome, hv, hd]
    rfl
  simp only [preserveWsKeys, hne, hc, Bool.not_false, if_true]
  rw [dget_dinsert_self]
  simp [pyGet, hv]

theorem coordMergeStep_roof_sticky {prior : Dict} {v : Json} (inp : MergeInput)
    (hv : dget prior "roof_device" = some v) (hl : lacksRoofDevice inp) :
    dget (coordMergeStep (some prior) inp) "roof_device" = some v := by
  cases inp with
  | push delta =>
    have hnone : dget delta "roof_device" = none := hl
    simpa [coordMergeStep, handleWsMerge, dget_dmerge_of_absent prior hnone]
      using hv
  | rest status weather =>
    have hnone : dget status "roof_device" = none := hl
    have hw : dget (applyWeather status weather) "roof_device" = none := by
      rw [applyWeather_dget_ne _ _ (by decide)]
      exact hnone
    simpa [coordMergeStep, updateDataValue] using preserveWsKeys_roof_device hv hw

theorem runMerges_cons (st : Option Dict) (inp : MergeInput)
    (rest : List MergeInput) :
    runMerges st (inp :: rest) = runMerges (some (coordMergeStep st inp)) rest := rfl

/-! ## Claims -/

/-- Nested lookup `d[k1][k2]` when `d[k1]` is a dict (for stating the
nested-field behaviour of the merge). -/
def nestedGet (d : Dict) (k1 k2 : String) : Option Json :=
  match dget d k1 with
  | some (.obj l) => dget l k2
  | _ => none

/-- Prior state for the C1 counterexample: positions known for both
`stack` and `tilt`. -/
def c1Prior : Dict :=
  [("current_roof_positions", Json.obj [("stack", Json.num 10), ("tilt", Json.num 50)])]

/-- Push delta for the C1 counterexample: carries `current_roof_positions`
with only `stack`, no `tilt`. -/
def c1Delta : Dict :=
  [("current_roof_positions", Json.obj [("stack", Json.num 20)])]

/-- **C1** (amended): the push merge `{**self.data, **data}` is field-wise
at the *top level*: a delta that does not carry a top-level field `f`
leaves the prior value of `f` unchanged in the merged DeviceState. -/
theorem ws_merge_preserves_absent_fields (prior delta : Dict) (f : String)
    (h : dget delta f = none) :
    dget (handleWsMerge (some prior) delta) f = dget prior f := by
  simpa [handleWsMerge] using dget_dmerge_of_absent prior h

/-- Witness for C1's amended theorem at a concrete merge. -/
theorem ws_merge_preserves_absent_fields_witness :
    dget (handleWsMerge (some [("locked", Json.bool true)])
      [("state", Json.str "ready")]) "locked" = some (Json.bool true) :=
  (ws_merge_preserves_absent_fields [("locked", Json.bool true)]
    [("state", Json.str "ready")] "locked" rfl).trans rfl

/-- **C1 counterexample**: the claim extends the frame property to the
nested fields `stack`/`tilt` inside `current_roof_positions`, but the merge
replaces the nested object wholesale: a delta carrying
`current_roof_positions` without `tilt` erases the prior `tilt` value. -/
theorem ws_merge_nested_tilt_lost :
    nestedGet c1Delta "current_roof_positions" "tilt" = none ∧
    nestedGet c1Prior "current_roof_positions" "tilt" = some (Json.num 50) ∧
    nestedGet (handleWsMerge (some c1Prior) c1Delta)
      "current_roof_positions" "tilt" = none :=
  ⟨rfl, rfl, rfl⟩

/-- Coordinator state for the C2 counterexample: a REST poll is scheduled
at `t = 30`. -/
def c2Before : CoordState :=
  { data := some [("locked", Json.bool true)], nextRefreshAt := 30 }

/-- **C2 counterexample**: before a push delta arrives at `t = 5` the next
REST poll is scheduled at `t = 30`; after handling the delta it is
scheduled at `t = 35` — the timer was reset, the claimed equality fails. -/
theorem push_resets_poll_timer_cex :
    c2Before.nextRefreshAt = 30 ∧
    (handle_ws_message c2Before 5 [("state", Json.str "ready")]).1.nextRefreshAt = 35 ∧
    (35 : ℚ) ≠ 30 := by
  refine ⟨rfl, ?_, by norm_num⟩
  show (5 : ℚ) + UPDATE_INTERVAL = 35
  norm_num [UPDATE_INTERVAL]

/-- **C2** (amended): handling a push delta *does* reset the REST polling
timer — the next poll is scheduled `UPDATE_INTERVAL` (30 s) after the
push-triggered update, per `async_set_updated_data`'s documented
behaviour ("resetting the REST poll timer"). -/
theorem push_resets_poll_timer (st : CoordState) (now : ℚ) (delta : Dict) :
    (handle_ws_message st now delta).1.nextRefreshAt = now + UPDATE_INTERVAL :=
  rfl

/-- **C3**: once `roof_device` is present in the held data, any sequence of
further merges (REST snapshots or push deltas) none of which carries
`roof_device` leaves the stored `roof_device` value intact. -/
theorem roof_device_sticky (prior : Dict) (v : Json) (inputs : List MergeInput)
    (hv : dget prior "roof_device" = some v)
    (hl : ∀ inp ∈ inputs, lacksRoofDevice inp) :
    ∃ final, runMerges (some prior) inputs = some final ∧
      dget final "roof_device" = some v := by
  induction inputs generalizing prior with
  | nil => exact ⟨prior, rfl, hv⟩
  | cons inp rest ih =>
    have hstep := coordMergeStep_roof_sticky inp hv (hl inp (by simp))
    have hrest := ih (coordMergeStep (some prior) inp) hstep
      (fun i hi => hl i (by simp [hi]))
    simpa [runMerges_cons] using hrest

/-- Witness for C3 at a concrete sequence: one push without `roof_device`
followed by a REST snapshot without it. -/
theorem roof_device_sticky_witness :
    ∃ final,
      runMerges (some [("roof_device", Json.obj [("state", Json.str "ready")])])
        [MergeInput.push [("locked", Json.bool true)],
         MergeInput.rest [("state", Json.str "ready")] (Except.error "weather down")]
        = some final ∧
      dget final "roof_device" = some (Json.obj [("state", Json.str "ready")]) := by
  refine roof_device_sticky _ _ _ rfl ?_
  intro i hi
  simp only [List.mem_cons, List.not_mem_nil, or_false] at hi
  rcases hi with rfl | rfl
  · exact rfl
  · exact rfl

/-- **C4**: the cycle press issues exactly one of three commands: `stop`
when `roof_device.state == "moving"` (memory unchanged); else `setTilt(0)`
with memory set to `closing` when the memory is `opening` or the rounded
stack position is ≥ 100; else `open` with memory set to `opening`. -/
theorem cycle_press_rule (data : Option Dict) (last : String) (pl : Dict)
    (hpos : cyclePositionsOf data = Json.obj pl) :
    (cycleIsMoving (cycleRoofOf data) = some true →
      async_press data last = some (CycleCmd.stopRoof, last)) ∧
    (cycleIsMoving (cycleRoofOf data) = some false → last = "opening" →
      async_press data last = some (CycleCmd.setTiltZero, "closing")) ∧
    (∀ q : ℚ, cycleIsMoving (cycleRoofOf data) = some false →
      stackNumOf pl = some q → 100 ≤ pyRound q →
      async_press data last = some (CycleCmd.setTiltZero, "closing")) ∧
    (∀ q : ℚ, cycleIsMoving (cycleRoofOf data) = some false →
      last ≠ "opening" → stackNumOf pl = some q → pyRound q < 100 →
      async_press data last = some (CycleCmd.openRoof, "opening")) := by
  refine ⟨?_, ?_, ?_, ?_⟩
  · intro hm
    simp [async_press, async_press_core, hpos, hm]
  · intro hm hop
    simp [async_press, async_press_core, hpos, hm, hop]
  · intro q hm hq hge
    by_cases hop : last == "opening"
    · simp [async_press, async_press_core, hpos, hm, hop]
    · simp [async_press, async_press_core, hpos, hm, hop, hq, hge]
  · intro q hm hop hq hlt
    have hop' : (last == "opening") = false := by simp [beq_iff_eq, hop]
    simp [async_press, async_press_core, hpos, hm, hop', hq, not_le.mpr hlt]

/-- Witness for C4: moving roof, press issues `stop` and leaves the
direction memory unchanged. -/
theorem cycle_press_rule_witness :
    async_press (some [("roof_device", Json.obj [("state", Json.str "moving")])])
      "closing" = some (CycleCmd.stopRoof, "closing") :=
  (cycle_press_rule (some [("roof_device", Json.obj [("state", Json.str "moving")])])
    "closing" [] rfl).1 rfl

/-- **C5** (amended): the classifier discards undecodable input, non-record
JSON, protocol messages and unknown types; it emits an event exactly when
the `type` is one of the five topics and `data` is a keyed record — but the
emitted event is the bare `data` record, it does not carry the message's
`type`. -/
theorem parse_ws_message_characterization (p : Option Json) (e : Json) :
    parse_ws_message p = some e ↔
      ∃ l dl s, p = some (Json.obj l) ∧ dget l "type" = some (Json.str s) ∧
        s ∈ wsEventTypes ∧ dget l "data" = some (Json.obj dl) ∧
        e = Json.obj dl := by
  constructor
  · intro h
    match p with
    | none => exact absurd h (by simp [parse_ws_message])
    | some (.null) => exact absurd h (by simp [parse_ws_message])
    | some (.bool b) => exact absurd h (by simp [parse_ws_message])
    | some (.num q) => exact absurd h (by simp [parse_ws_message])
    | some (.str s) => exact absurd h (by simp [parse_ws_message])
    | some (.arr a) => exact absurd h (by simp [parse_ws_message])
    | some (.obj l) =>
      simp only [parse_ws_message] at h
      split at h
      · exact absurd h (by simp)
      · split at h
        · rename_i hproto hev
          simp only [pyGetD] at hev
          cases hty : dget l "type" with
          | none =>
            rw [hty] at hev
            simp [jsonStrMem, wsEventTypes] at hev
          | some tj =>
            rw [hty] at hev
            simp only [Option.getD_some] at hev
            cases tj with
            | str s =>
              have hmem : s ∈ wsEventTypes := by
                simpa [jsonStrMem, List.contains, List.elem_iff] using hev
              cases hdata : dget l "data" with
              | none => rw [hdata] at h; exact absurd h (by simp)
              | some dj =>
                cases dj with
                | obj dl =>
                  rw [hdata] at h
                  simp only [Option.some.injEq] at h
                  exact ⟨l, dl, s, rfl, hty, hmem, hdata, h.symm⟩
                | null => rw [hdata] at h; exact absurd h (by simp)
                | bool b => rw [hdata] at h; exact absurd h (by simp)
                | num q => rw [hdata] at h; exact absurd h (by simp)
                | str t => rw [hdata] at h; exact absurd h (by simp)
                | arr a => rw [hdata] at h; exact absurd h (by simp)
            | null => simp [jsonStrMem] at hev
            | bool b => simp [jsonStrMem] at hev
            | num q => simp [jsonStrMem] at hev
            | arr a => simp [jsonStrMem] at hev
            | obj o => simp [jsonStrMem] at hev
        · exact absurd h (by simp)
  · rintro ⟨l, dl, s, rfl, hty, hev, hdata, rfl⟩
    have hproto : jsonStrMem (pyGetD l "type" (Json.str "")) wsProtocolTypes = false := by
      simp only [pyGetD, hty, Option.getD_some]
      simp only [wsEventTypes, List.mem_cons, List.not_mem_nil, or_false] at hev
      rcases hev with rfl | rfl | rfl | rfl | rfl <;> rfl
    have hevb : jsonStrMem (pyGetD l "type" (Json.str "")) wsEventTypes = true := by
      simp only [pyGetD, hty, Option.getD_some, jsonStrMem]
      simpa [List.contains, List.elem_iff] using hev
    simp [parse_ws_message, hproto, hevb, hdata]

/-- Witness for C5's amended theorem: a topic message with a record `data`
is passed through as that record. -/
theorem parse_ws_message_witness :
    parse_ws_message (some (Json.obj
      [("type", Json.str "SKYE2_STATUS_CHANGED"),
       ("data", Json.obj [("roof_device", Json.obj [])])])) =
      some (Json.obj [("roof_device", Json.obj [])]) :=
  (parse_ws_message_characterization _ _).mpr
    ⟨_, _, "SKYE2_STATUS_CHANGED", rfl, rfl, by decide, rfl, rfl⟩

/-- The `type` of a raw message record, as a string (for the C5
counterexample). -/
def msgTypeStr (l : Dict) : String :=
  match dget l "type" with
  | some (.str s) => s
  | _ => ""

/-- C5 counterexample message 1. -/
def c5Msg1 : Dict :=
  [("type", Json.str "ROOF_STATUS_CHANGED"), ("data", Json.obj [("x", Json.num 1)])]

/-- C5 counterexample message 2: same `data`, different topic. -/
def c5Msg2 : Dict :=
  [("type", Json.str "SYSTEM_STATUS_CHANGED"), ("data", Json.obj [("x", Json.num 1)])]

/-- **C5 counterexample**: two topic messages with different `type`s emit
the *same* event — the emitted `StateDelta` does not carry the message's
`type`, contradicting "emits a StateDelta carrying the message's type and
data". -/
theorem parse_ws_message_drops_type :
    parse_ws_message (some (Json.obj c5Msg1)) = some (Json.obj [("x", Json.num 1)]) ∧
    parse_ws_message (some (Json.obj c5Msg2)) = some (Json.obj [("x", Json.num 1)]) ∧
    msgTypeStr c5Msg1 ≠ msgTypeStr c5Msg2 :=
  ⟨rfl, rfl, by decide⟩

/-- **C6 counterexample**: a failing weather fetch makes
`async_get_weather_state` raise (propagate the error) — it does not
"return empty rather than raising". -/
theorem weather_fetch_raises_on_error :
    async_get_weather_state (FetchResult.netErr "boom") = Except.error "boom" ∧
    async_get_weather_state (FetchResult.netErr "boom") ≠ Except.ok Json.null :=
  ⟨rfl, fun h => Except.noConfusion h⟩

/-- **C6** (amended): `async_get_weather_state` raises on a fetch error,
but the coordinator catches any weather exception, so the refresh still
succeeds; no `weather_state` field is added, and with no prior data the
refresh result is exactly the status data. -/
theorem weather_failure_nonfatal (prior : Option Dict) (status : Dict)
    (e : String) :
    updateDataExc prior (Except.ok status) (Except.error e) =
      Except.ok (updateDataValue prior status (Except.error e)) ∧
    (dget status "weather_state" = none →
      dget (updateDataValue prior status (Except.error e)) "weather_state" = none) ∧
    updateDataValue none status (Except.error e) = status := by
  refine ⟨rfl, ?_, rfl⟩
  intro hnone
  rw [updateDataValue]
  rw [preserveWsKeys_dget_ne _ _ (by decide)]
  exact hnone

/-- Witness for C6's amended theorem at a concrete refresh. -/
theorem weather_failure_nonfatal_witness :
    dget (updateDataValue none [("state", Json.str "ready")]
      (Except.error "timeout")) "weather_state" = none :=
  (weather_failure_nonfatal none [("state", Json.str "ready")] "timeout").2.1 rfl

/-- **C7**: when the REST status fetch fails, `_async_update_data` raises
`UpdateFailed` before touching any state; the refresh driver then keeps the
previously held DeviceState unchanged and delivers exactly one
`refreshFailed` signal to subscribers. -/
theorem refresh_failure_preserves_state (st : CoordState) (now : ℚ)
    (e : String) (w : Except String Json) :
    (refreshStep st now (updateDataExc st.data (Except.error e) w)).1.data
      = st.data ∧
    (refreshStep st now (updateDataExc st.data (Except.error e) w)).2
      = [RefreshSignal.refreshFailed] :=
  ⟨rfl, rfl⟩

/-- **C8**: `_degrees_to_ha` equals the spec's
`clamp(round(d / 125 * 100), 0, 100)`, is monotone non-decreasing on
`[0, 125]`, and maps `0 → 0` and `125 → 100`. -/
theorem tilt_mapper_props :
    (∀ d : ℚ, degrees_to_ha d = tiltDegreesToPercentSpec d) ∧
    (∀ d1 d2 : ℚ, 0 ≤ d1 → d1 ≤ d2 → d2 ≤ 125 →
      degrees_to_ha d1 ≤ degrees_to_ha d2) ∧
    degrees_to_ha 0 = 0 ∧
    degrees_to_ha 125 = 100 := by
  refine ⟨?_, ?_, ?_, ?_⟩
  · intro d
    unfold degrees_to_ha tiltDegreesToPercentSpec TILT_MAX_DEGREES
    omega
  · intro d1 d2 h0 h12 h125
    have harg : d1 / TILT_MAX_DEGREES * 100 ≤ d2 / TILT_MAX_DEGREES * 100 := by
      unfold TILT_MAX_DEGREES
      linarith
    unfold degrees_to_ha
    exact min_le_min (le_refl _) (max_le_max (le_refl _) (pyRound_mono harg))
  · show min 100 (max 0 (pyRound ((0 : ℚ) / TILT_MAX_DEGREES * 100))) = 0
    rw [(by norm_num [TILT_MAX_DEGREES] :
          (0 : ℚ) / TILT_MAX_DEGREES * 100 = ((0 : ℤ) : ℚ)), pyRound_intCast]
    decide
  · show min 100 (max 0 (pyRound ((125 : ℚ) / TILT_MAX_DEGREES * 100))) = 100
    rw [(by norm_num [TILT_MAX_DEGREES] :
          (125 : ℚ) / TILT_MAX_DEGREES * 100 = ((100 : ℤ) : ℚ)), pyRound_intCast]
    decide

/-- Witness for C8's monotonicity conjunct at concrete tilt angles. -/
theorem tilt_mapper_props_witness : degrees_to_ha 50 ≤ degrees_to_ha 60 :=
  tilt_mapper_props.2.1 50 60 (by norm_num) (by norm_num) (by norm_num)

/-- **C9** (amended): a 2xx REST status response whose `Content-Type` does
not contain `"application/json"` makes `async_get_status` return — without
raising — the record with exactly the keys `_content_type` and `_preview`
(the first 500 characters of the body); when the weather fetch fails and
there is no prior data, exactly that record becomes the coordinator's
DeviceState on that refresh. -/
theorem status_nonjson_debug_record (resp : HttpResponse) (e : String)
    (hok : resp.status < 400)
    (hct : strContains resp.contentType "application/json" = false) :
    async_get_status (FetchResult.ok resp) =
      Except.ok (Json.obj [("_content_type", Json.str resp.contentType),
                          ("_preview", Json.str (resp.textBody.take 500))]) ∧
    updateDataValue none
        [("_content_type", Json.str resp.contentType),
         ("_preview", Json.str (resp.textBody.take 500))] (Except.error e)
      = [("_content_type", Json.str resp.contentType),
         ("_preview", Json.str (resp.textBody.take 500))] ∧
    (∀ t now : ℚ,
      (refreshStep { data := none, nextRefreshAt := t } now
        (updateDataExc none
          (Except.ok [("_content_type", Json.str resp.contentType),
                      ("_preview", Json.str (resp.textBody.take 500))])
          (Except.error e))).1.data
      = some [("_content_type", Json.str resp.contentType),
              ("_preview", Json.str (resp.textBody.take 500))]) := by
  refine ⟨?_, rfl, fun t now => rfl⟩
  simp [async_get_status, Nat.not_le.mpr hok, hct]

/-- Witness for C9's amended theorem at a concrete HTML response. -/
theorem status_nonjson_debug_record_witness :
    async_get_status (FetchResult.ok
      { status := 200, contentType := "text/html",
        jsonBody := none, textBody := "<html>" }) =
      Except.ok (Json.obj [("_content_type", Json.str "text/html"),
                          ("_preview", Json.str (String.take "<html>" 500))]) :=
  (status_nonjson_debug_record
    { status := 200, contentType := "text/html",
      jsonBody := none, textBody := "<html>" }
    "weather down" (by norm_num) (by decide)).1

/-- The debug record of the C9 counterexample. -/
def c9Record : Dict :=
  [("_content_type", Json.str "text/html"), ("_preview", Json.str "<html>")]

/-- **C9 counterexample**: when the weather fetch succeeds on the same
refresh, the coordinator's DeviceState is *not* that record alone — a
`weather_state` field is added — so "this record becomes the coordinator's
DeviceState" fails as universally stated. -/
theorem status_nonjson_record_extended :
    dget (updateDataValue none c9Record (Except.ok (Json.str "rain")))
      "weather_state" = some (Json.str "rain") ∧
    dget c9Record "weather_state" = none ∧
    updateDataValue none c9Record (Except.ok (Json.str "rain")) ≠ c9Record := by
  refine ⟨rfl, rfl, ?_⟩
  intro h
  have hlen := congrArg List.length h
  exact absurd hlen (by decide)

/-- **C10**: a push delta delivered while the coordinator holds no data yet
is published as-is to subscribers as the full current DeviceState; a field
the delta does not carry is absent from the published snapshot. -/
theorem push_before_rest_publishes_delta (st : CoordState) (now : ℚ)
    (delta : Dict) (h : st.data = none) :
    handle_ws_message st now delta =
      ({ data := some delta, nextRefreshAt := now + UPDATE_INTERVAL },
       [RefreshSignal.updated]) ∧
    (∀ f, dget delta f = none →
      dget (publishedData (handle_ws_message st now delta).1) f = none) := by
  constructor
  · simp [handle_ws_message, handleWsMerge, h, async_set_updated_data]
  · intro f hf
    simp [handle_ws_message, handleWsMerge, h, async_set_updated_data,
      publishedData, hf]

/-- Witness for C10 at a concrete first delta. -/
theorem push_before_rest_publishes_delta_witness :
    handle_ws_message { data := none, nextRefreshAt := 30 } 5
        [("roof_device", Json.obj [("state", Json.str "moving")])] =
      ({ data := some [("roof_device", Json.obj [("state", Json.str "moving")])],
         nextRefreshAt := 5 + UPDATE_INTERVAL },
       [RefreshSignal.updated]) :=
  (push_before_rest_publishes_delta
    { data := none, nextRefreshAt := 30 } 5
    [("roof_device", Json.obj [("state", Json.str "moving")])] rfl).1
